import Mathlib

/-!
Shallow embedding of the nimbus.io web-director request router
(`src/web_director/router.py`), together with theorems settling the
specification claims about it.

Modelling conventions:
* Python strings are Lean `String`s; Python's `hostname[:-k]` slice is
  `String.take` of `length - k` characters.
* The router instance's mutable attributes (`known_collections`,
  `known_clusters`, `management_api_request_dest_hosts`) form an explicit
  `RouterState` threaded through the functions.  `collections.deque` is a
  `List` whose in-place `rotate(1)` (a rotation to the right: the last
  element moves to the front) becomes `rotateRight` plus an explicit
  write-back into the state, mirroring the aliasing of the cached deque
  object.
* External effects are parameters: the central database is an `Env`
  (`dbCluster` models `_db_cluster_for_collection`, `dbHosts` models the
  host list built by `_db_cluster_info`); each availability attempt's
  `redis.hmget` answer is `replies att`; each attempt's `time.time()` is
  `nows att`.  `gevent.sleep` only advances time, which the `nows`
  sequence already models.
* A stored redis value is `Option RedisVal`: `none` for a missing hash
  field, `RedisVal.invalid` for a value on which `json.loads` raises, and
  `RedisVal.status r` for a decoded `{"reachable": r}` object.
* Python exceptions escaping `route` are modelled by `Outcome.err`;
  the state and the count of database queries performed before the
  exception stay observable, as they do on the surviving Python object.
* `route` recurses on an explicit fuel so that it is total; exhausting
  the fuel yields the artificial `PyErr.outOfFuel`, which no theorem ever
  identifies with a behaviour of the source.
* Logging, `self.request_counter` and `init_complete.wait()` have no
  routing-visible effect and are omitted.
-/

/-- Routing decision: `close` models the `{'close': 'HTTP/1.0 <code> ...'}`
dictionary built by `_reject` (kept structured as code plus the optional
explicit reason), `remote` models `{'remote': target}`. -/
inductive Resp where
  | close (code : Nat) (reason : Option String)
  | remote (target : String)
deriving DecidableEq, Repr

/-- Python exceptions that `route` can raise. -/
inductive PyErr where
  | unboundLocal
  | typeError
  | indexError
  | outOfFuel
deriving DecidableEq, Repr

/-- Result of a call: a returned decision or a raised exception. -/
inductive Outcome where
  | ok (r : Resp)
  | err (e : PyErr)
deriving DecidableEq, Repr

/-- Decoded redis hash value: `invalid` when `json.loads` raises,
`status r` for a decoded object with boolean field `reachable = r`. -/
inductive RedisVal where
  | invalid
  | status (reachable : Bool)
deriving DecidableEq, Repr

/-- Answer of one `redis.hmget` call: `error` when the client raises
`RedisError`, otherwise one optional value per requested key. -/
inductive RedisReply where
  | error
  | ok (vals : List (Option RedisVal))
deriving DecidableEq, Repr

/-- Mutable attributes of the `Router` object. -/
structure RouterState where
  serviceDomain : String
  readPort : Nat
  writePort : Nat
  managementHosts : List String
  knownCollections : List (String × Option Nat)
  knownClusters : List (Nat × List String)
deriving DecidableEq, Repr

/-- External world: the central database.  `dbCluster` is the single-row
query of `_db_cluster_for_collection` (`none` when no row matches),
`dbHosts` the ordered host list assembled by `_db_cluster_info`. -/
structure Env where
  dbCluster : String → Option Nat
  dbHosts : Nat → List String

/-- `collections.deque.rotate(1)`: one rotation to the right, the last
element becomes the head. -/
def rotateRight {α : Type} (l : List α) : List α :=
  match l.getLast? with
  | none => l
  | some x => x :: l.dropLast

example : rotateRight [1, 2, 3] = [3, 1, 2] := by decide

/-- Python `s.endswith(suffix)`, on the character sequence. -/
def pyEndsWith (s suffix : String) : Bool :=
  suffix.data.isSuffixOf s.data

/-- Python `s[:-k]` for `k > 0`: every character but the last `k`
(empty when `k ≥ len(s)`). -/
def pyDropLast (s : String) (k : Nat) : String :=
  ⟨s.data.take (s.data.length - k)⟩

example : pyEndsWith "col.example.com" "example.com" = true := by decide
example : pyEndsWith "xexample.com" "example.com" = true := by decide
example : pyEndsWith "evil.org" "example.com" = false := by decide
example : pyDropLast "xexample.com" 12 = "" := by decide
example : pyDropLast "col.example.com" 12 = "col" := by decide

/-- Lookup in the collection cache (`collection in self.known_collections`
followed by `self.known_collections[collection]`); the stored value may
itself be `none` — Python caches the null result. -/
def lookupColl (cache : List (String × Option Nat)) (c : String) :
    Option (Option Nat) :=
  (cache.find? fun p => p.1 == c).map Prod.snd

/-- Lookup in the cluster cache `self.known_clusters`. -/
def lookupClus (cache : List (Nat × List String)) (cid : Nat) :
    Option (List String) :=
  (cache.find? fun p => p.1 == cid).map Prod.snd

/-- `_cluster_for_collection`: consult the cache, otherwise issue the
database query and store the result (including `none`).  Returns the
cluster id, the updated state, and the number of database queries
issued (0 or 1). -/
def cluster_for_collection (st : RouterState) (env : Env) (c : String) :
    Option Nat × RouterState × Nat :=
  match lookupColl st.knownCollections c with
  | some v => (v, st, 0)
  | none =>
      let result := env.dbCluster c
      (result,
       { st with knownCollections := (c, result) :: st.knownCollections },
       1)

/-- `_cluster_info`: consult `known_clusters`, otherwise fetch the host
list from the database and cache it. -/
def cluster_info (st : RouterState) (env : Env) (cid : Nat) :
    List String × RouterState :=
  match lookupClus st.knownClusters cid with
  | some hosts => (hosts, st)
  | none =>
      let hosts := env.dbHosts cid
      (hosts, { st with knownClusters := (cid, hosts) :: st.knownClusters })

/-- `_hosts_for_collection`: `none` when the collection resolves to no
cluster.  The cluster id is returned alongside the host deque so that
`route`'s in-place rotations of the shared deque object can be written
back into the cluster cache. -/
def hosts_for_collection (st : RouterState) (env : Env) (c : String) :
    Option (Nat × List String) × RouterState × Nat :=
  match cluster_for_collection st env c with
  | (none, st1, q) => (none, st1, q)
  | (some cid, st1, q) =>
      let (hosts, st2) := cluster_info st1 env cid
      (some (cid, hosts), st2, q)

/-- `_parse_collection`: `hostname[:-(len(service_domain) + 1)]`.  The
slice always yields a string (possibly empty), never `None`. -/
def parse_collection (serviceDomain hostname : String) : String :=
  pyDropLast hostname (serviceDomain.length + 1)

/-- `check_availability`: decide which of `hosts` look reachable from one
`redis.hmget` bulk read.  Structure of the source: an empty host list
short-circuits to the empty set; a `RedisError` fails open to the full
input; otherwise a value decoding to `reachable: true` makes its host
available, a missing value makes its host `unknown`, and a value on
which `json.loads` raises is only logged (it is put in neither group);
when every host is unknown the full input is returned. -/
def check_availability (hosts : List String) (reply : RedisReply) :
    Finset String :=
  if hosts.isEmpty then ∅
  else
    match reply with
    | RedisReply.error => hosts.toFinset
    | RedisReply.ok vals =>
        let pairs := hosts.zip vals
        let availList :=
          (pairs.filter fun p => p.2 == some (RedisVal.status true)).map
            Prod.fst
        let unknown := (pairs.filter fun p => p.2 == none).map Prod.fst
        if unknown ≠ [] ∧ unknown.length = hosts.length then
          availList.toFinset ∪ hosts.toFinset
        else availList.toFinset

/-- `_reject`: build the go-away decision (code plus the optional
explicit reason; `none` means the canonical phrase is used as body). -/
def reject (code : Nat) (reason : Option String) : Resp :=
  Resp.close code reason

/-- The selection loop
`for _ in xrange(len(hosts)): hosts.rotate(1); target = hosts[0]; ...`:
rotate, inspect the new head, stop when it is available.  Returns the
selected host (if any) together with the deque as left by the
rotations. -/
def selectHost : Nat → List String → Finset String →
    Option String × List String
  | 0, hosts, _ => (none, hosts)
  | n + 1, hosts, avail =>
      let h := rotateRight hosts
      match h.head? with
      | none => (none, h)
      | some t => if t ∈ avail then (some t, h) else selectHost n h avail

/-- Write the rotated deque back into the cluster cache: models the fact
that `route` rotates the very deque object stored in
`known_clusters[cid]['hosts']`. -/
def storeRotated (st : RouterState) (cid : Nat) (hosts : List String) :
    RouterState :=
  { st with knownClusters := (cid, hosts) :: st.knownClusters }

/-- One body of `Router.route` (lines 255-325), with the recursive retry
call abstracted as `retry` (given the state and the `start` value it is
invoked with).  Faithful points worth noting:
* line 292 `self._reject(httplib.BAD_REQUEST, "Unknown method")` has no
  `return`, so an unknown method leaves `dest_port` unassigned and the
  later `check_availability(hosts, dest_port)` raises
  `UnboundLocalError`; the computed reject is discarded;
* line 296 `self._reject(httplib.NOT_FOUND, "No such collection")` is
  dead even in the source: `_parse_collection` never returns `None`;
* line 301, the same call for `hosts is None`, also has no `return`;
  execution falls into `check_availability(None, dest_port)` (which
  returns the empty set without touching redis) and then
  `xrange(len(hosts))` raises `TypeError` on `len(None)`;
* the third component counts database queries issued during the call. -/
def routeBody (st : RouterState) (env : Env) (replies : Nat → RedisReply)
    (nows : Nat → Int) (hostname : Option String) (method : String)
    (start : Option Int) (att : Nat)
    (retry : RouterState → Int → Outcome × RouterState × Nat) :
    Outcome × RouterState × Nat :=
  match hostname with
  | none => (Outcome.ok (reject 404 none), st, 0)
  | some host =>
    if pyEndsWith host st.serviceDomain then
      if host == st.serviceDomain then
        let mh := rotateRight st.managementHosts
        match mh.head? with
        | none =>
            (Outcome.err PyErr.indexError,
             { st with managementHosts := mh }, 0)
        | some target =>
            (Outcome.ok (Resp.remote target),
             { st with managementHosts := mh }, 0)
      else
        let destPort : Option Nat :=
          if method ∈ (["POST", "DELETE", "PUT", "PATCH"] : List String)
          then some st.writePort
          else if method ∈ (["HEAD", "GET"] : List String)
          then some st.readPort
          else none
        let collection := parse_collection st.serviceDomain host
        match hosts_for_collection st env collection with
        | (found, st1, q) =>
          match destPort with
          | none => (Outcome.err PyErr.unboundLocal, st1, q)
          | some dp =>
            match found with
            | none => (Outcome.err PyErr.typeError, st1, q)
            | some (cid, hosts) =>
              let avail := check_availability hosts (replies att)
              match selectHost hosts.length hosts avail with
              | (some target, hosts') =>
                  (Outcome.ok
                     (Resp.remote (target ++ ":" ++ toString dp)),
                   storeRotated st1 cid hosts', q)
              | (none, hosts') =>
                  let st2 := storeRotated st1 cid hosts'
                  let now := nows att
                  let start' := start.getD now
                  if now - start' > 30 then
                    (Outcome.ok (reject 503 (some "Retry later")), st2, q)
                  else
                    match retry st2 start' with
                    | (o, s2, q') => (o, s2, q + q')
    else (Outcome.ok (reject 404 none), st, 0)

/-- `Router.route`, with fuel bounding the retry recursion.  Database
query counts accumulate across retries. -/
def route : Nat → RouterState → Env → (Nat → RedisReply) → (Nat → Int) →
    Option String → String → Option Int → Nat →
    Outcome × RouterState × Nat
  | 0, st, env, replies, nows, hostname, method, start, att =>
      routeBody st env replies nows hostname method start att
        (fun st' _ => (Outcome.err PyErr.outOfFuel, st', 0))
  | f + 1, st, env, replies, nows, hostname, method, start, att =>
      routeBody st env replies nows hostname method start att
        (fun st' s' =>
          route f st' env replies nows hostname method (some s') (att + 1))

/-! ### Concrete fixtures used by the claim theorems and witnesses -/

/-- Router state with service domain `example.com`, read port 8000,
write port 9000, management hosts `[m1, m2]`, collection `col` cached to
cluster 1 whose hosts are `[h1, h2, h3]`. -/
def demoState : RouterState :=
  { serviceDomain := "example.com"
    readPort := 8000
    writePort := 9000
    managementHosts := ["m1", "m2"]
    knownCollections := [("col", some 1)]
    knownClusters := [(1, ["h1", "h2", "h3"])] }

/-- A database with no collections: every lookup returns no row. -/
def emptyEnv : Env :=
  { dbCluster := fun _ => none, dbHosts := fun _ => [] }

/-- Every availability attempt reports all three hosts reachable. -/
def allUp : Nat → RedisReply := fun _ =>
  RedisReply.ok
    [some (RedisVal.status true), some (RedisVal.status true),
     some (RedisVal.status true)]

/-- A clock; irrelevant to calls that find a host on the first try. -/
def tick : Nat → Int := fun i => i

/-- The collection cache after `ghost` has been resolved to no cluster. -/
def ghostCachedState : RouterState :=
  { demoState with knownCollections := [("ghost", none)] }

/-- First of four successive collection-scoped `GET` calls against
`demoState` with every host reachable. -/
def c3call1 : Outcome × RouterState × Nat :=
  route 1 demoState emptyEnv allUp tick (some "col.example.com") "GET"
    none 0

/-- Second successive call, from the state the first one left. -/
def c3call2 : Outcome × RouterState × Nat :=
  route 1 c3call1.2.1 emptyEnv allUp tick (some "col.example.com") "GET"
    none 0

/-- Third successive call. -/
def c3call3 : Outcome × RouterState × Nat :=
  route 1 c3call2.2.1 emptyEnv allUp tick (some "col.example.com") "GET"
    none 0

/-- Fourth successive call. -/
def c3call4 : Outcome × RouterState × Nat :=
  route 1 c3call3.2.1 emptyEnv allUp tick (some "col.example.com") "GET"
    none 0

/-! ### C1 -/

/-- C1: the claim says a collection-scoped call with a method outside
`{GET, HEAD, POST, PUT, PATCH, DELETE}` returns a 400 reject without
raising.  The source instead evaluates `self._reject(httplib.BAD_REQUEST,
"Unknown method")` on line 292 without `return`, discards it, and leaves
`dest_port` unassigned, so the call raises `UnboundLocalError` when
`check_availability(hosts, dest_port)` is evaluated: at hostname
`col.example.com`, method `OPTIONS`, the outcome is the exception, not a
decision. -/
theorem c1_unknown_method_raises_unbound_local :
    route 1 demoState emptyEnv allUp tick (some "col.example.com")
      "OPTIONS" none 0
      = (Outcome.err PyErr.unboundLocal, demoState, 0) := by decide

/-! ### C2 -/

/-- C2: the claim says a valid-method call on a collection the directory
maps to no cluster returns a 404 reject, caches the `none` entry, and a
second identical call issues no further directory query.  The caching
half is true: the first call stores `ghost ↦ none` and issues one
query, the second issues zero.  But the 404 reject computed on line 301
is discarded (no `return`); the call instead falls through and raises
`TypeError` at `xrange(len(hosts))` with `hosts = None`. -/
theorem c2_missing_cluster_caches_none_but_raises :
    route 1 { demoState with knownCollections := [] } emptyEnv allUp tick
        (some "ghost.example.com") "GET" none 0
      = (Outcome.err PyErr.typeError, ghostCachedState, 1)
    ∧ route 1 ghostCachedState emptyEnv allUp tick
        (some "ghost.example.com") "GET" none 0
      = (Outcome.err PyErr.typeError, ghostCachedState, 0) := by decide

/-! ### C3 -/

/-- C3 counterexample: with host queue `[h1, h2, h3]` and all hosts
reachable, the first successful call selects `h3`, not `h2` as the claim
states — `deque.rotate(1)` rotates to the right, bringing the last host
to the head. -/
theorem c3_first_selection_is_h3_not_h2 :
    c3call1.1 = Outcome.ok (Resp.remote "h3:8000")
    ∧ Resp.remote "h3:8000" ≠ Resp.remote "h2:8000" := by decide

/-- C3 amended: successive successful calls select hosts in the order
`h3, h2, h1, h3, ...` — the queue rotates once to the right before the
head is inspected, so the cycle walks the declared order backwards
starting from the last host. -/
theorem c3_rotation_selects_reverse_order :
    c3call1.1 = Outcome.ok (Resp.remote "h3:8000")
    ∧ c3call2.1 = Outcome.ok (Resp.remote "h2:8000")
    ∧ c3call3.1 = Outcome.ok (Resp.remote "h1:8000")
    ∧ c3call4.1 = Outcome.ok (Resp.remote "h3:8000") := by decide

/-! ### C4 -/

/-- C4 counterexample: with management list `[m1, m2]`, the first call
addressed to the bare service domain returns `m2`, not `m1` as the
claim states — the deque is rotated to the right before its head is
read, so the cycle starts at the last configured host. -/
theorem c4_first_management_target_is_m2_not_m1 :
    (route 1 demoState emptyEnv allUp tick (some "example.com") "GET"
        none 0).1
      = Outcome.ok (Resp.remote "m2")
    ∧ Resp.remote "m2" ≠ Resp.remote "m1" := by decide

/-- Management state with an arbitrary two-host list. -/
def mgmtState (a b : String) : RouterState :=
  { demoState with managementHosts := [a, b] }

/-- First management call for list `[a, b]`. -/
def c4call1 (a b : String) : Outcome × RouterState × Nat :=
  route 1 (mgmtState a b) emptyEnv allUp tick (some "example.com") "GET"
    none 0

/-- Second management call. -/
def c4call2 (a b : String) : Outcome × RouterState × Nat :=
  route 1 (c4call1 a b).2.1 emptyEnv allUp tick (some "example.com")
    "GET" none 0

/-- Third management call. -/
def c4call3 (a b : String) : Outcome × RouterState × Nat :=
  route 1 (c4call2 a b).2.1 emptyEnv allUp tick (some "example.com")
    "GET" none 0

/-- C4 amended: successive bare-domain calls cycle through the
configured list with period equal to its length, but in reverse
declaration order starting from the last host: for `[m1, m2]` the
targets are `m2`, then `m1`, then `m2` again. -/
theorem c4_management_cycles_from_last_host (a b : String) :
    (c4call1 a b).1 = Outcome.ok (Resp.remote b)
    ∧ (c4call2 a b).1 = Outcome.ok (Resp.remote a)
    ∧ (c4call3 a b).1 = Outcome.ok (Resp.remote b) := by
  refine ⟨?_, ?_, ?_⟩ <;> rfl

/-! ### C6 -/

/-- A nonempty deque rotated to the right starts with some element of
the original deque, followed by all but the last original element. -/
theorem rotateRight_cons_head {α : Type} (a : α) (as : List α) :
    ∃ x, x ∈ a :: as
      ∧ rotateRight (a :: as) = x :: (a :: as).dropLast := by
  have hne : (a :: as).getLast? ≠ none := by
    simp [List.getLast?_eq_none_iff]
  obtain ⟨x, hx⟩ := Option.ne_none_iff_exists'.mp hne
  exact ⟨x, List.mem_of_getLast?_eq_some hx, by simp [rotateRight, hx]⟩

/-- C6: when the redis bulk read raises `RedisError`,
`check_availability` fails open and returns the full input set of
hosts, and the selection loop consequently still finds a host. -/
theorem c6_redis_error_fails_open (hosts : List String)
    (h : hosts ≠ []) :
    check_availability hosts RedisReply.error = hosts.toFinset
    ∧ (selectHost hosts.length hosts
        (check_availability hosts RedisReply.error)).1.isSome = true := by
  have hav : check_availability hosts RedisReply.error
      = hosts.toFinset := by
    simp [check_availability, h]
  refine ⟨hav, ?_⟩
  rw [hav]
  match hosts, h with
  | a :: as, _ =>
    obtain ⟨x, hmem, hrot⟩ := rotateRight_cons_head a as
    simp only [selectHost, hrot, List.length_cons, List.head?_cons,
      List.mem_toFinset, List.toFinset_cons]
    rw [if_pos (by simpa [List.mem_toFinset] using hmem)]
    rfl

/-- C6 witness at a concrete two-host list. -/
theorem c6_redis_error_fails_open_witness :
    check_availability ["h1", "h2"] RedisReply.error
      = (["h1", "h2"] : List String).toFinset
    ∧ (selectHost (["h1", "h2"] : List String).length ["h1", "h2"]
        (check_availability ["h1", "h2"] RedisReply.error)).1.isSome
      = true :=
  c6_redis_error_fails_open ["h1", "h2"] (by decide)

/-! ### C5 -/

/-- Python truthiness of the optional cluster id, as tested by
`if result:` in `__supervise_db_interaction` (line 73): `None` and `0`
are falsy. -/
def pyTruthy : Option Nat → Bool
  | none => false
  | some n => n != 0

/-- Two greenlets A and B call `_cluster_for_collection` for the same
collection, both having missed the cache (line 161) before either
queried the database.  Under gevent's cooperative scheduling the
`dblock` inside `_supervise_db_interaction` serializes the two critical
sections; the winner (A) releases the lock and — performing no blocking
operation in between — stores its result in `known_collections`
(line 166) before the loser (B) resumes.  B then runs the supplied
`cache_check_func` (`known_collections.get(collection, None)`) under the
lock and, only `if result:` is truthy, skips its own database query;
both finally store their value.  Returns A's result, B's result, the
final state, and the total number of database queries issued. -/
def two_concurrent_misses (st : RouterState) (env : Env) (c : String) :
    Option Nat × Option Nat × RouterState × Nat :=
  match cluster_for_collection st env c with
  | (ra, st1, qa) =>
    let cached := (lookupColl st1.knownCollections c).getD none
    if pyTruthy cached then
      (ra, cached,
       { st1 with knownCollections := (c, cached) :: st1.knownCollections },
       qa)
    else
      let rb := env.dbCluster c
      (ra, rb,
       { st1 with knownCollections := (c, rb) :: st1.knownCollections },
       qa + 1)

/-- C5 counterexample: the claim says two concurrent misses on the same
collection always collapse to exactly one directory query.  For a
collection the directory maps to no cluster the cached `None` is falsy,
so the second caller's `cache_check_func` result is discarded by
`if result:` and a second query is issued: on a cold cache with
`dbCluster ghost = none` the pair of calls performs 2 queries, not 1. -/
theorem c5_none_result_queried_twice :
    (two_concurrent_misses
        { demoState with knownCollections := [] } emptyEnv "ghost").2.2.2
      = 2
    ∧ (2 : Nat) ≠ 1 := by decide

/-- C5 amended: both callers always return the same cluster-id value,
and the two misses collapse to exactly one directory query whenever the
resolved cluster-id is truthy (present and nonzero); a falsy result
(`none`, or the id 0) defeats the `if result:` cache re-check and the
second caller queries again. -/
theorem c5_single_query_for_truthy_result (st : RouterState) (env : Env)
    (c : String) (hmiss : lookupColl st.knownCollections c = none) :
    (two_concurrent_misses st env c).1
        = (two_concurrent_misses st env c).2.1
    ∧ (pyTruthy (env.dbCluster c) = true →
        (two_concurrent_misses st env c).2.2.2 = 1) := by
  have h1 : cluster_for_collection st env c
      = (env.dbCluster c,
         { st with
            knownCollections :=
              (c, env.dbCluster c) :: st.knownCollections },
         1) := by
    simp [cluster_for_collection, hmiss]
  have h2 : lookupColl ((c, env.dbCluster c) :: st.knownCollections) c
      = some (env.dbCluster c) := by
    simp [lookupColl, List.find?_cons_of_pos]
  simp only [two_concurrent_misses, h1, h2, Option.getD_some]
  by_cases ht : pyTruthy (env.dbCluster c) = true
  · simp [ht]
  · simp [ht]

/-- C5 amended witness: a collection resolving to cluster 7 on a cold
cache. -/
theorem c5_single_query_for_truthy_result_witness :
    (two_concurrent_misses { demoState with knownCollections := [] }
        { dbCluster := fun _ => some 7, dbHosts := fun _ => [] } "col").1
      = (two_concurrent_misses { demoState with knownCollections := [] }
          { dbCluster := fun _ => some 7, dbHosts := fun _ => [] }
          "col").2.1
    ∧ (pyTruthy (some 7) = true →
        (two_concurrent_misses { demoState with knownCollections := [] }
            { dbCluster := fun _ => some 7, dbHosts := fun _ => [] }
            "col").2.2.2 = 1) :=
  c5_single_query_for_truthy_result
    { demoState with knownCollections := [] }
    { dbCluster := fun _ => some 7, dbHosts := fun _ => [] } "col" rfl

/-! ### C9 -/

/-- C9: a missing hostname, or one that does not end with the service
domain, is rejected with 404 immediately: no backend target, no state
change, no database query, whatever the method, start value or fuel. -/
theorem c9_foreign_hostname_rejected_404 (fuel : Nat) (st : RouterState)
    (env : Env) (replies : Nat → RedisReply) (nows : Nat → Int)
    (hostname : Option String) (method : String) (start : Option Int)
    (att : Nat)
    (h : hostname = none
      ∨ ∃ hn, hostname = some hn
          ∧ pyEndsWith hn st.serviceDomain = false) :
    route fuel st env replies nows hostname method start att
      = (Outcome.ok (reject 404 none), st, 0) := by
  rcases h with rfl | ⟨hn, rfl, hf⟩
  · cases fuel <;> simp [route, routeBody]
  · cases fuel <;> simp [route, routeBody, hf]

/-- C9 witness: hostname `evil.org` under service domain
`example.com`. -/
theorem c9_foreign_hostname_rejected_404_witness :
    route 1 demoState emptyEnv allUp tick (some "evil.org") "GET" none 0
      = (Outcome.ok (reject 404 none), demoState, 0) :=
  c9_foreign_hostname_rejected_404 1 demoState emptyEnv allUp tick
    (some "evil.org") "GET" none 0
    (Or.inr ⟨"evil.org", rfl, by decide⟩)

/-! ### Outcome shape of one routing attempt (shared by C8 and C10) -/

/-- Every attempt either rejects with a bare 404, proxies to a remote
target, raises, rejects with the 503 after observing that more than 30
seconds elapsed past the threaded `start` (defaulted to the current
attempt's clock), or defers to the retry continuation called with that
defaulted `start`. -/
theorem routeBody_cases (st : RouterState) (env : Env)
    (replies : Nat → RedisReply) (nows : Nat → Int)
    (hostname : Option String) (method : String) (start : Option Int)
    (att : Nat)
    (retry : RouterState → Int → Outcome × RouterState × Nat) :
    (routeBody st env replies nows hostname method start att retry).1
        = Outcome.ok (reject 404 none)
    ∨ (∃ t, (routeBody st env replies nows hostname method start att
          retry).1 = Outcome.ok (Resp.remote t))
    ∨ (∃ e, (routeBody st env replies nows hostname method start att
          retry).1 = Outcome.err e)
    ∨ ((routeBody st env replies nows hostname method start att retry).1
          = Outcome.ok (reject 503 (some "Retry later"))
        ∧ nows att - start.getD (nows att) > 30)
    ∨ (∃ st2,
        (routeBody st env replies nows hostname method start att retry).1
          = (retry st2 (start.getD (nows att))).1) := by
  unfold routeBody
  cases hostname with
  | none => exact Or.inl rfl
  | some host =>
    by_cases hend : pyEndsWith host st.serviceDomain = true
    · simp only [hend, if_true]
      by_cases heq : (host == st.serviceDomain) = true
      · simp only [heq, if_true]
        cases hh : (rotateRight st.managementHosts).head? with
        | none => exact Or.inr (Or.inr (Or.inl ⟨PyErr.indexError, rfl⟩))
        | some target =>
            exact Or.inr (Or.inl ⟨target, rfl⟩)
      · simp only [heq, if_false]
        rcases hfc : hosts_for_collection st env
            (parse_collection st.serviceDomain host) with ⟨found, st1, q⟩
        simp only [hfc]
        cases hdp : (if method ∈ (["POST", "DELETE", "PUT", "PATCH"] :
              List String) then some st.writePort
            else if method ∈ (["HEAD", "GET"] : List String)
            then some st.readPort else none) with
        | none =>
            simp only [hdp]
            exact Or.inr (Or.inr (Or.inl ⟨PyErr.unboundLocal, rfl⟩))
        | some dp =>
          simp only [hdp]
          cases found with
          | none => exact Or.inr (Or.inr (Or.inl ⟨PyErr.typeError, rfl⟩))
          | some ch =>
            rcases ch with ⟨cid, hosts⟩
            rcases hsel : selectHost hosts.length hosts
                (check_availability hosts (replies att)) with ⟨tgt, hosts'⟩
            simp only [hsel]
            cases tgt with
            | some target =>
                exact Or.inr (Or.inl ⟨target ++ ":" ++ toString dp, rfl⟩)
            | none =>
              by_cases htime :
                  nows att - start.getD (nows att) > 30
              · simp only [if_pos htime]
                exact Or.inr (Or.inr (Or.inr (Or.inl ⟨rfl, htime⟩)))
              · simp only [if_neg htime]
                rcases hr : retry (storeRotated st1 cid hosts')
                    (start.getD (nows att)) with ⟨o, s2, q'⟩
                simp only [hr]
                exact Or.inr (Or.inr (Or.inr (Or.inr
                  ⟨storeRotated st1 cid hosts', by simp [hr]⟩)))
    · simp only [hend, if_false]
      exact Or.inl rfl

/-! ### C8 -/

/-- Helper for C8: if a call carrying any `start` value produces the
503 reject, then some attempt `j` at or after the current one observed
`nows j` more than 30 seconds past the defaulted `start`.  Induction on
the retry fuel. -/
theorem route_503_elapsed (fuel : Nat) :
    ∀ (st : RouterState) (env : Env) (replies : Nat → RedisReply)
      (nows : Nat → Int) (hostname : Option String) (method : String)
      (start : Option Int) (att : Nat) (reason : Option String),
      (route fuel st env replies nows hostname method start att).1
          = Outcome.ok (Resp.close 503 reason) →
      ∃ j, att ≤ j ∧ nows j - start.getD (nows att) > 30 := by
  induction fuel with
  | zero =>
    intro st env replies nows hostname method start att reason h
    simp only [route] at h
    rcases routeBody_cases st env replies nows hostname method start att
        (fun st' _ => (Outcome.err PyErr.outOfFuel, st', 0)) with
      h1 | ⟨t, h1⟩ | ⟨e, h1⟩ | ⟨h1, ht⟩ | ⟨st2, h1⟩
    · exact absurd (h1.symm.trans h) (by simp [reject])
    · exact absurd (h1.symm.trans h) (by simp)
    · exact absurd (h1.symm.trans h) (by simp)
    · exact ⟨att, le_refl att, ht⟩
    · exact absurd (h1.symm.trans h) (by simp)
  | succ f ih =>
    intro st env replies nows hostname method start att reason h
    simp only [route] at h
    rcases routeBody_cases st env replies nows hostname method start att
        (fun st' s' =>
          route f st' env replies nows hostname method (some s')
            (att + 1)) with
      h1 | ⟨t, h1⟩ | ⟨e, h1⟩ | ⟨h1, ht⟩ | ⟨st2, h1⟩
    · exact absurd (h1.symm.trans h) (by simp [reject])
    · exact absurd (h1.symm.trans h) (by simp)
    · exact absurd (h1.symm.trans h) (by simp)
    · exact ⟨att, le_refl att, ht⟩
    · have h2 := h1.symm.trans h
      obtain ⟨j, hj, hgt⟩ := ih st2 env replies nows hostname method
        (some (start.getD (nows att))) (att + 1) reason h2
      exact ⟨j, le_trans (Nat.le_succ att) hj, by simpa using hgt⟩

/-- C8: an externally issued call (`start = None`) returns the 503
"Retry later" reject only when some retry attempt `j` observed a clock
more than 30 seconds past the clock of the first attempt — the first
failed attempt writes its own `now` into `start`, every recursion keeps
that `start`, and the reject fires only once `now - start > 30`. -/
theorem c8_503_only_after_deadline (fuel : Nat) (st : RouterState)
    (env : Env) (replies : Nat → RedisReply) (nows : Nat → Int)
    (hostname : Option String) (method : String) (att : Nat)
    (reason : Option String)
    (h : (route fuel st env replies nows hostname method none att).1
        = Outcome.ok (Resp.close 503 reason)) :
    ∃ j, att ≤ j ∧ nows j - nows att > 30 := by
  have := route_503_elapsed fuel st env replies nows hostname method
    none att reason h
  simpa using this

/-- Cluster 1 shrunk to a single host, for the timeout scenario. -/
def oneHostState : RouterState :=
  { demoState with knownClusters := [(1, ["h1"])] }

/-- Every attempt reports the lone host unreachable. -/
def allDown : Nat → RedisReply := fun _ =>
  RedisReply.ok [some (RedisVal.status false)]

/-- A clock that jumps 40 seconds between attempts. -/
def fortyTick : Nat → Int := fun i => 40 * i

/-- C8 witness: with the lone host down on every attempt and the clock
jumping 40 seconds per attempt, the second attempt trips the deadline
and the 503 is produced; the theorem then yields the elapsed-time
bound. -/
theorem c8_503_only_after_deadline_witness :
    ∃ j, 0 ≤ j ∧ fortyTick j - fortyTick 0 > 30 :=
  c8_503_only_after_deadline 1 oneHostState emptyEnv allDown fortyTick
    (some "col.example.com") "GET" 0 (some "Retry later") (by decide)

/-! ### C10 -/

/-- Helper for C10: no outcome of `route` is ever a 404 reject carrying
an explicit reason — in particular the `"No such collection"` reject of
the `collection is None` branch is never returned (in the source that
branch both cannot trigger, `_parse_collection` being a total slice,
and discards its reject).  Induction on the retry fuel. -/
theorem route_no_reasoned_404 (fuel : Nat) :
    ∀ (st : RouterState) (env : Env) (replies : Nat → RedisReply)
      (nows : Nat → Int) (hostname : Option String) (method : String)
      (start : Option Int) (att : Nat) (r : String),
      (route fuel st env replies nows hostname method start att).1
        ≠ Outcome.ok (Resp.close 404 (some r)) := by
  induction fuel with
  | zero =>
    intro st env replies nows hostname method start att r h
    simp only [route] at h
    rcases routeBody_cases st env replies nows hostname method start att
        (fun st' _ => (Outcome.err PyErr.outOfFuel, st', 0)) with
      h1 | ⟨t, h1⟩ | ⟨e, h1⟩ | ⟨h1, _⟩ | ⟨st2, h1⟩ <;>
      exact absurd (h1.symm.trans h) (by simp [reject])
  | succ f ih =>
    intro st env replies nows hostname method start att r h
    simp only [route] at h
    rcases routeBody_cases st env replies nows hostname method start att
        (fun st' s' =>
          route f st' env replies nows hostname method (some s')
            (att + 1)) with
      h1 | ⟨t, h1⟩ | ⟨e, h1⟩ | ⟨h1, _⟩ | ⟨st2, h1⟩
    · exact absurd (h1.symm.trans h) (by simp [reject])
    · exact absurd (h1.symm.trans h) (by simp)
    · exact absurd (h1.symm.trans h) (by simp)
    · exact absurd (h1.symm.trans h) (by simp [reject])
    · exact ih st2 env replies nows hostname method
        (some (start.getD (nows att))) (att + 1) r (h1.symm.trans h)

/-- Directory for the C10 scenario: only the empty collection name has
a row, owning cluster 9 with host `h9`. -/
def c10Env : Env :=
  { dbCluster := fun c => if c == "" then some 9 else none
    dbHosts := fun _ => ["h9"] }

/-- Cold caches for the C10 scenario. -/
def c10State : RouterState :=
  { demoState with knownCollections := [], knownClusters := [] }

/-- Every attempt reports the single polled host reachable. -/
def oneUp : Nat → RedisReply := fun _ =>
  RedisReply.ok [some (RedisVal.status true)]

/-- C10: `_parse_collection` is a plain slice and never yields `None`,
so `route` can never return the `"No such collection"` 404 of the
parse branch (first conjunct, over all inputs); consequently the
hostname `xexample.com` — which ends with the service domain
`example.com` without ending with `.example.com` — is not rejected at
parse time but routed under the truncated (here empty) collection
name: the directory is queried for `""` and the call proxies to that
cluster's host. -/
theorem c10_parse_never_none_empty_collection_routed :
    (∀ (fuel : Nat) (st : RouterState) (env : Env)
        (replies : Nat → RedisReply) (nows : Nat → Int)
        (hostname : Option String) (method : String)
        (start : Option Int) (att : Nat) (r : String),
        (route fuel st env replies nows hostname method start att).1
          ≠ Outcome.ok (Resp.close 404 (some r)))
    ∧ pyEndsWith "xexample.com" "example.com" = true
    ∧ "xexample.com" ≠ "example.com"
    ∧ parse_collection "example.com" "xexample.com" = ""
    ∧ route 1 c10State c10Env oneUp tick (some "xexample.com") "GET"
        none 0
      = (Outcome.ok (Resp.remote "h9:8000"),
         { c10State with
            knownCollections := [("", some 9)]
            knownClusters := [(9, ["h9"]), (9, ["h9"])] },
         1) := by
  refine ⟨?_, by decide, by decide, by decide, by decide⟩
  intro fuel st env replies nows hostname method start att r
  exact route_no_reasoned_404 fuel st env replies nows hostname method
    start att r

/-! ### C7 -/

/-- C7 counterexample: the claim says a value on which JSON decoding
fails makes its host `unknown`, so a one-host input whose single stored
value is undecodable should fail open to the full set.  In the source
the decode-failure branch only logs — the host joins neither the
available nor the unknown list — so the result is the empty set, not
the full input. -/
theorem c7_undecodable_value_yields_empty :
    check_availability ["h1"] (RedisReply.ok [some RedisVal.invalid]) = ∅
    ∧ check_availability ["h1"] (RedisReply.ok [some RedisVal.invalid])
        ≠ (["h1"] : List String).toFinset := by decide

/-- C7 amended: only hosts whose stored entry is missing count as
unknown; a host whose value fails to decode is treated as unavailable
(it is dropped from both groups).  Hence the full input set comes back
when every entry is missing, while an input whose every value fails to
decode yields the empty set. -/
theorem c7_unknown_means_missing_entry (hosts : List String)
    (vals : List (Option RedisVal)) (hne : hosts ≠ [])
    (hlen : vals.length = hosts.length) :
    ((∀ v ∈ vals, v = none) →
        check_availability hosts (RedisReply.ok vals) = hosts.toFinset)
    ∧ ((∀ v ∈ vals, v = some RedisVal.invalid) →
        check_availability hosts (RedisReply.ok vals) = ∅) := by
  have hle : hosts.length ≤ vals.length := le_of_eq hlen.symm
  have hmap : (hosts.zip vals).map Prod.fst = hosts :=
    List.map_fst_zip hosts vals hle
  constructor
  · intro hall
    have havail : (hosts.zip vals).filter
        (fun p => p.2 == some (RedisVal.status true)) = [] := by
      rw [List.filter_eq_nil_iff]
      rintro ⟨a, b⟩ hp
      have hb : b = none := hall b (List.of_mem_zip hp).2
      simp [hb]
    have hunk : (hosts.zip vals).filter (fun p => p.2 == none)
        = hosts.zip vals := by
      rw [List.filter_eq_self]
      rintro ⟨a, b⟩ hp
      simp [hall b (List.of_mem_zip hp).2]
    simp only [check_availability, List.isEmpty_eq_false.mpr hne,
      Bool.false_eq_true, if_false, havail, hunk]
    rw [hmap, if_pos ⟨hne, rfl⟩]
    simp
  · intro hall
    have havail : (hosts.zip vals).filter
        (fun p => p.2 == some (RedisVal.status true)) = [] := by
      rw [List.filter_eq_nil_iff]
      rintro ⟨a, b⟩ hp
      have hb : b = some RedisVal.invalid := hall b (List.of_mem_zip hp).2
      simp [hb]
    have hunk : (hosts.zip vals).filter (fun p => p.2 == none) = [] := by
      rw [List.filter_eq_nil_iff]
      rintro ⟨a, b⟩ hp
      have hb : b = some RedisVal.invalid := hall b (List.of_mem_zip hp).2
      simp [hb]
    simp only [check_availability, List.isEmpty_eq_false.mpr hne,
      Bool.false_eq_true, if_false, havail, hunk]
    simp

/-- C7 amended witness: one host with a missing entry fails open; one
host with an undecodable entry comes back empty. -/
theorem c7_unknown_means_missing_entry_witness :
    check_availability ["h1"] (RedisReply.ok [none])
        = (["h1"] : List String).toFinset
    ∧ check_availability ["h1"] (RedisReply.ok [some RedisVal.invalid])
        = ∅ :=
  ⟨(c7_unknown_means_missing_entry ["h1"] [none] (by decide) rfl).1
      (by decide),
   (c7_unknown_means_missing_entry ["h1"] [some RedisVal.invalid]
      (by decide) rfl).2 (by decide)⟩
